import Mathlib

/-!
Auri Priority Engine — a shallow embedding.

A Lean model of the priority-scoring engine of `auri-flow`
(`src/lib/engine/priority.ts`, `src/lib/engine/calibration.ts`,
`src/lib/engine/types.ts`).

Numbers are modelled by `ℝ` (the source computes with IEEE doubles and
`Math.exp`; we take the idealised real semantics, excluding NaN/Infinity).
Dates (`ISO string` fields and `now`) are modelled by their millisecond
timestamps, i.e. by a real number; an absent optional field is `none`.
JavaScript truthiness on a number (`!x`, `x || d`) is false exactly on `0`
(and NaN, which the real model excludes); the helper `jsOr` records this.
-/

namespace Auri

/-- Source `PillarWeights` from types.ts: user's relative valuation of the three
life pillars. -/
structure PillarWeights where
  wd : ℝ
  wf : ℝ
  wm : ℝ

/-- Source `PillarBenefits` from types.ts: how much a task advances each pillar. -/
structure PillarBenefits where
  bd : ℝ
  bf : ℝ
  bm : ℝ

/-- Source `ContinuousMeta` from types.ts: saturating benefit-curve parameters. -/
structure ContinuousMeta where
  Hmin : ℝ
  Hmax : ℝ
  b0 : ℝ
  k : ℝ

/-- Source `GUT` from types.ts. `betaG`/`betaU` are optional in the source
(defaults applied inside `applyGUT`). -/
structure GUT where
  G : ℝ
  U : ℝ
  betaG : Option ℝ
  betaU : Option ℝ

/-- Source `Decay` from types.ts: the argument record of `applyDecay`. -/
structure Decay where
  deltaDays : ℝ
  lambda0 : ℝ
  Rd : ℝ

/-- Source `CostInput` from types.ts.  The source field `c$` is spelled `cDollar`
(Lean identifiers cannot contain `$`). -/
structure CostInput where
  ct : ℝ
  ce : ℝ
  cDollar : ℝ
  kSetup : ℝ
  horas : ℝ
  esforco : ℝ
  dinheiro : ℝ

/-- The per-task decay configuration (`task.decay` in types.ts): an optional
due date (timestamp of the ISO string) and the rigidity `Rd`. -/
structure TaskDecay where
  due : Option ℝ
  Rd : ℝ

/-- Source `Task` from types.ts, restricted to the fields the engine reads.
`end` is a Lean keyword, so that field is spelled `end_`.  The optional
boolean `completed` is modelled by `Bool` (the source only ever tests
truthiness and `=== true`, which identify `undefined` with `false`). -/
structure Task where
  id : String
  title : String
  start : Option ℝ
  end_ : Option ℝ
  durationMin : Option ℝ
  effort : Option ℝ
  money : Option ℝ
  type : String
  benefits : PillarBenefits
  gut : Option GUT
  decay : Option TaskDecay
  deps : Option (List String)
  completed : Bool
  priorityScore : Option ℝ

/-- Source `UserPreferences` from types.ts, restricted to the one field the engine
reads (the remaining fields are UI/voice settings never consulted by
priority.ts). -/
structure UserPreferences where
  weights : PillarWeights

/-- Models JavaScript `x || d` on an optional number: `0` is falsy, so both an
absent value and `0` select the default. -/
noncomputable def jsOr (x : Option ℝ) (d : ℝ) : ℝ :=
  match x with
  | none => d
  | some v => if v = 0 then d else v

/-! Calibration tables (calibration.ts). -/

namespace DEFAULTS

/-- Source `DEFAULTS.SCALE`. -/
noncomputable def SCALE : ℝ := 10

/-- Source `DEFAULTS.continuous`: continuous-activity metadata, keyed by category;
registered exactly for `estudo`, `treino`, `sono`, `leitura`. -/
noncomputable def continuous (t : String) : Option ContinuousMeta :=
  if t = "estudo" then some ⟨0.75, 2, 1, 0.7⟩
  else if t = "treino" then some ⟨1, 1.5, 1, 0.6⟩
  else if t = "sono" then some ⟨7, 9, 1, 0.4⟩
  else if t = "leitura" then some ⟨0.5, 3, 1, 0.5⟩
  else none

/-- Source `DEFAULTS.cost.ct`. -/
noncomputable def cost_ct : ℝ := 8

/-- Source `DEFAULTS.cost.ce`. -/
noncomputable def cost_ce : ℝ := 6

/-- Source `DEFAULTS.cost.c$`. -/
noncomputable def cost_cDollar : ℝ := 2

/-- Source `DEFAULTS.cost.kSetup` as a keyed lookup (`undefined` for a category
not in the table). -/
noncomputable def cost_kSetup (t : String) : Option ℝ :=
  if t = "estudo" then some 10
  else if t = "treino" then some 5
  else if t = "sono" then some 2
  else if t = "leitura" then some 3
  else if t = "outro" then some 5
  else none

/-- Source `DEFAULTS.cost.kSetup.outro`, the fallback of the
`kSetup[type] || kSetup.outro` lookup in `scoreTask` (no registered
`kSetup` is `0`, so `||` only fires on a missing key). -/
noncomputable def cost_kSetup_outro : ℝ := 5

/-- Source `DEFAULTS.gut.betaG`. -/
noncomputable def gut_betaG : ℝ := 0.2

/-- Source `DEFAULTS.gut.betaU`. -/
noncomputable def gut_betaU : ℝ := 0.35

/-- Source `DEFAULTS.decay.lambda0`. -/
noncomputable def decay_lambda0 : ℝ := 0.25

end DEFAULTS

/-- An inclusive `[min, max]` constraint range from `CONSTRAINTS`. -/
structure ConstraintRange where
  min : ℝ
  max : ℝ

/-- Source `CONSTRAINTS.duration`: allowed duration (minutes) per category. -/
noncomputable def CONSTRAINTS_duration (t : String) : Option ConstraintRange :=
  if t = "estudo" then some ⟨45, 120⟩
  else if t = "treino" then some ⟨60, 90⟩
  else if t = "sono" then some ⟨420, 540⟩
  else if t = "leitura" then some ⟨30, 180⟩
  else if t = "pontual" then some ⟨5, 480⟩
  else if t = "outro" then some ⟨5, 480⟩
  else none

/-- Source `CONSTRAINTS.effort`: allowed effort (1–10) per category. -/
noncomputable def CONSTRAINTS_effort (t : String) : Option ConstraintRange :=
  if t = "estudo" then some ⟨4, 9⟩
  else if t = "treino" then some ⟨6, 10⟩
  else if t = "sono" then some ⟨1, 3⟩
  else if t = "leitura" then some ⟨2, 6⟩
  else if t = "pontual" then some ⟨1, 8⟩
  else if t = "outro" then some ⟨1, 10⟩
  else none

/-- Source `validateDuration` from calibration.ts: permissive (`true`) when the
category has no registered constraint, otherwise an inclusive range check. -/
def validateDuration (type : String) (minutes : ℝ) : Prop :=
  match CONSTRAINTS_duration type with
  | none => True
  | some c => c.min ≤ minutes ∧ minutes ≤ c.max

/-- Source `validateEffort` from calibration.ts. -/
def validateEffort (type : String) (effort : ℝ) : Prop :=
  match CONSTRAINTS_effort type with
  | none => True
  | some c => c.min ≤ effort ∧ effort ≤ c.max

/-! Formula pipeline (priority.ts). -/

/-- Source `calcS0Base`: `S0 = SCALE * (wd*bd + wf*bf + wm*bm)`.  The source takes
a merged record `{wd,wf,wm,bd,bf,bm,SCALE?}`; here weights and benefits are
passed as their two records and `SCALE` explicitly (every call site in the
source uses the default `DEFAULTS.SCALE`). -/
noncomputable def calcS0Base (w : PillarWeights) (b : PillarBenefits) (SCALE : ℝ) : ℝ :=
  SCALE * (w.wd * b.bd + w.wf * b.bf + w.wm * b.bm)

/-- Source `continuousBenefit`: `B(H) = (b0/k) * (1 - exp(-k*H))`, and `0` for
`H ≤ 0`. -/
noncomputable def continuousBenefit (H b0 k : ℝ) : ℝ :=
  if H ≤ 0 then 0 else (b0 / k) * (1 - Real.exp (-k * H))

/-- Source `calcS0Continuous`: `SCALE * B(H) * (wd*bd + wf*bf + wm*bm)`. -/
noncomputable def calcS0Continuous (H : ℝ) (weights : PillarWeights)
    (benefits : PillarBenefits) (SCALE b0 k : ℝ) : ℝ :=
  SCALE * continuousBenefit H b0 k *
    (weights.wd * benefits.bd + weights.wf * benefits.bf + weights.wm * benefits.bm)

/-- Source `calcCost`: `max(0, ct*horas + ce*esforco + c$*dinheiro + kSetup)`. -/
noncomputable def calcCost (c : CostInput) : ℝ :=
  max 0 (c.ct * c.horas + c.ce * c.esforco + c.cDollar * c.dinheiro + c.kSetup)

/-- Source `applyGUT`: returns the pair `(S0G, tAdj)` of the source's result record,
applying the `DEFAULTS.gut` fallbacks for the optional `betaG`/`betaU`. -/
noncomputable def applyGUT (S0 : ℝ) (g : GUT) : ℝ × (ℝ → ℝ) :=
  let betaG := g.betaG.getD DEFAULTS.gut_betaG
  let betaU := g.betaU.getD DEFAULTS.gut_betaU
  (S0 * (1 + betaG * (g.G - 3)), fun h => h + betaU * (g.U - 3))

/-- Source `applyDecay`: `lambda = lambda0 * (Rd - 1)`;
result `S0G * exp(-lambda * deltaDays)`. -/
noncomputable def applyDecay (S0G : ℝ) (d : Decay) : ℝ :=
  let lambda := d.lambda0 * (d.Rd - 1)
  S0G * Real.exp (-lambda * d.deltaDays)

/-- Source `calcPriorityBase`: `max(0, S0D - K)`. -/
noncomputable def calcPriorityBase (S0D K : ℝ) : ℝ :=
  max 0 (S0D - K)

/-- Source `WindowCheck` from types.ts (`Wwin` is the `0|1` flag, `depsDone` the
dependency flag). -/
structure WindowCheck where
  Wwin : ℕ
  depsDone : Prop

open Classical in
/-- Source `applyPracticalConstraints`: the priority passes through exactly when
`Wwin === 1` and `depsDone`. -/
noncomputable def applyPracticalConstraints (PriorityBase : ℝ) (w : WindowCheck) : ℝ :=
  if w.Wwin = 1 ∧ w.depsDone then PriorityBase else 0

/-- Source `checkDurationConstraints`: `!task.durationMin` (absent or `0`) passes;
otherwise `validateDuration`. -/
def checkDurationConstraints (task : Task) : Prop :=
  match task.durationMin with
  | none => True
  | some d => d = 0 ∨ validateDuration task.type d

/-- Source `checkEffortConstraints`: `!task.effort` (absent or `0`) passes;
otherwise `validateEffort`. -/
def checkEffortConstraints (task : Task) : Prop :=
  match task.effort with
  | none => True
  | some e => e = 0 ∨ validateEffort task.type e

open Classical in
/-- Source `checkTimeWindow`: with both `start` and `end` present, a future window
(`start > now`) or a still-open window gives `1`, an elapsed window
(`end < now`) gives `0`; without an explicit window, always `1`. -/
noncomputable def checkTimeWindow (task : Task) (now : ℝ) : ℕ :=
  match task.start, task.end_ with
  | some startTime, some endTime =>
    if startTime > now then 1
    else if endTime < now then 0
    else 1
  | _, _ => 1

/-- Source `checkDependencies`: no `deps` (or an empty list) passes; otherwise every
listed ID must `find` a task in `allTasks` with `completed === true`. -/
def checkDependencies (task : Task) (allTasks : List Task) : Prop :=
  match task.deps with
  | none => True
  | some deps =>
    deps.length = 0 ∨ ∀ depId ∈ deps,
      (allTasks.find? fun t => t.id == depId).elim False fun depTask =>
        depTask.completed = true

/-! The function `scoreTask` (priority.ts, lines 185–298).

The source computes the score through a chain of `let` bindings; each
binding is a named definition here so the stages can be reasoned about
separately.  The `try/catch` wrapper is vacuous in the real model (no
expression of the pipeline throws), the `debug` flag and the `steps` trace
only feed `console.log`. -/

/-- Source `taskHours = (task.durationMin || 60) / 60` (step 1 of `scoreTask`). -/
noncomputable def taskHoursOf (task : Task) : ℝ :=
  jsOr task.durationMin 60 / 60

/-- Step 1 of `scoreTask`: `S0`, continuous formula when the category is in
`['estudo','treino','sono','leitura']` and has registered metadata, base
formula otherwise. -/
noncomputable def scoreTaskS0 (task : Task) (prefs : UserPreferences) : ℝ :=
  if task.type ∈ ["estudo", "treino", "sono", "leitura"] then
    match DEFAULTS.continuous task.type with
    | some meta =>
      calcS0Continuous (taskHoursOf task) prefs.weights task.benefits
        DEFAULTS.SCALE meta.b0 meta.k
    | none => calcS0Base prefs.weights task.benefits DEFAULTS.SCALE
  else
    calcS0Base prefs.weights task.benefits DEFAULTS.SCALE

/-- Step 2 of `scoreTask`: the cost, with `kSetup[type] || kSetup.outro`,
`effort || 3` and `money || 0` fallbacks. -/
noncomputable def scoreTaskCost (task : Task) : ℝ :=
  calcCost
    { ct := DEFAULTS.cost_ct
      ce := DEFAULTS.cost_ce
      cDollar := DEFAULTS.cost_cDollar
      kSetup := (DEFAULTS.cost_kSetup task.type).getD DEFAULTS.cost_kSetup_outro
      horas := taskHoursOf task
      esforco := jsOr task.effort 3
      dinheiro := jsOr task.money 0 }

/-- Step 3 of `scoreTask`: GUT applied when `task.gut` is present. -/
noncomputable def scoreTaskS0G (task : Task) (prefs : UserPreferences) : ℝ :=
  match task.gut with
  | some g => (applyGUT (scoreTaskS0 task prefs) g).1
  | none => scoreTaskS0 task prefs

/-- Step 4 of `scoreTask`: temporal decay applied when `task.decay?.due` is
present, with `deltaDays = max(0, (due - now) / 86400000)`. -/
noncomputable def scoreTaskS0D (task : Task) (now : ℝ) (prefs : UserPreferences) : ℝ :=
  match task.decay with
  | some dc =>
    match dc.due with
    | some due =>
      let deltaDays := max 0 ((due - now) / (1000 * 60 * 60 * 24))
      applyDecay (scoreTaskS0G task prefs)
        { deltaDays := deltaDays, lambda0 := DEFAULTS.decay_lambda0, Rd := dc.Rd }
    | none => scoreTaskS0G task prefs
  | none => scoreTaskS0G task prefs

/-- Step 5 of `scoreTask`: `priorityBase = max(0, S0D - cost)`. -/
noncomputable def scoreTaskPriorityBase (task : Task) (now : ℝ) (prefs : UserPreferences) : ℝ :=
  calcPriorityBase (scoreTaskS0D task now prefs) (scoreTaskCost task)

open Classical in
/-- Source `scoreTask`: the early `return 0` gates (completed task, duration or
effort constraint violation) followed by the pipeline and the practical
gate. -/
noncomputable def scoreTask (task : Task) (now : ℝ) (prefs : UserPreferences)
    (allTasks : List Task) : ℝ :=
  if task.completed = true then 0
  else if ¬ checkDurationConstraints task then 0
  else if ¬ checkEffortConstraints task then 0
  else
    applyPracticalConstraints (scoreTaskPriorityBase task now prefs)
      { Wwin := checkTimeWindow task now, depsDone := checkDependencies task allTasks }

/-! The function `sortTasksByPriority` (priority.ts, lines 303–324). -/

/-- The sort key of the comparator `(b.priorityScore || 0) - (a.priorityScore || 0)`:
a missing score counts as `0`. -/
noncomputable def scoreKey (t : Task) : ℝ :=
  t.priorityScore.getD 0

/-- The descending-score order the comparator induces on tasks. -/
def byDescendingScore (a b : Task) : Prop :=
  scoreKey b ≤ scoreKey a

noncomputable instance : DecidableRel byDescendingScore :=
  fun a b => inferInstanceAs (Decidable (scoreKey b ≤ scoreKey a))

instance : IsTotal Task byDescendingScore :=
  ⟨fun a b => le_total (scoreKey b) (scoreKey a)⟩

instance : IsTrans Task byDescendingScore :=
  ⟨fun _ _ _ hab hbc => le_trans hbc hab⟩

/-- Source `sortTasksByPriority`: score every task against the full collection,
attach the score as `priorityScore`, and sort by descending score.
(`Array.prototype.sort` produces some permutation sorted by the comparator;
it is modelled by insertion sort, which realises exactly that contract.) -/
noncomputable def sortTasksByPriority (tasks : List Task) (now : ℝ)
    (prefs : UserPreferences) : List Task :=
  let tasksWithScores := tasks.map fun task =>
    { task with priorityScore := some (scoreTask task now prefs tasks) }
  List.insertionSort byDescendingScore tasksWithScores

/-! Concrete inputs used by witnesses and counterexamples below. -/

/-- Preferences with the default weights `(0.4, 0.3, 0.3)`. -/
noncomputable def basePrefs : UserPreferences := ⟨⟨0.4, 0.3, 0.3⟩⟩

/-- A minimal one-off task: category `pontual`, full benefits, no optional
data. -/
noncomputable def pontualTask : Task :=
  { id := "t1", title := "tarefa pontual", start := none, end_ := none,
    durationMin := none, effort := none, money := none, type := "pontual",
    benefits := ⟨10, 10, 10⟩, gut := none, decay := none, deps := none,
    completed := false, priorityScore := none }

/-- The example in the spec: an `estudo` task of 30 minutes, below the
registered minimum of 45. -/
noncomputable def shortStudyTask : Task :=
  { pontualTask with id := "t2", type := "estudo", durationMin := some 30 }

/-- A `pontual` task with `durationMin = 0`: outside the registered range
`[5, 480]`, but falsy in JavaScript. -/
noncomputable def zeroDurationTask : Task :=
  { pontualTask with id := "t3", durationMin := some 0 }

/-- An `estudo` task with no stated duration. -/
noncomputable def studyNoDurationTask : Task :=
  { pontualTask with id := "t4", type := "estudo" }

/-- A task with one dependency (on `d1`) and all-zero benefits. -/
noncomputable def zeroBenefitDepTask : Task :=
  { pontualTask with id := "t6", benefits := ⟨0, 0, 0⟩, deps := some ["d1"] }

/-- A task with one dependency (on `d1`) and full benefits. -/
noncomputable def depTask : Task :=
  { pontualTask with id := "t7", deps := some ["d1"] }

/-- A completed task whose ID is `d1`, the dependency target. -/
noncomputable def completedDep : Task :=
  { pontualTask with id := "d1", completed := true }

/-- A task whose scheduling window (from time 0 to time 1) has elapsed by
`now = 2`. -/
noncomputable def elapsedWindowTask : Task :=
  { pontualTask with id := "t10", start := some 0, end_ := some 1 }

/-! Theorems.  General lemmas first, then one theorem per claim of the
specification, each with a doc comment naming the claim. -/

/-- The base priority is clamped at zero. -/
theorem calcPriorityBase_nonneg (S0D K : ℝ) : 0 ≤ calcPriorityBase S0D K :=
  le_max_left 0 _

/-- The practical gate preserves nonnegativity. -/
theorem applyPracticalConstraints_nonneg (PB : ℝ) (w : WindowCheck)
    (h : 0 ≤ PB) : 0 ≤ applyPracticalConstraints PB w := by
  unfold applyPracticalConstraints
  split
  · exact h
  · exact le_refl 0

/-- Claim C2: for every task, current time, user preferences, and task
collection, `scoreTask` returns a value greater than or equal to `0`.
(The caught-error path of the source also returns `0`; in the real-number
model no pipeline stage can throw, so the value is always the one computed
below.) -/
theorem scoreTask_nonneg (task : Task) (now : ℝ) (prefs : UserPreferences)
    (allTasks : List Task) : 0 ≤ scoreTask task now prefs allTasks := by
  unfold scoreTask
  split
  · exact le_refl 0
  split
  · exact le_refl 0
  split
  · exact le_refl 0
  exact applyPracticalConstraints_nonneg _ _ (calcPriorityBase_nonneg _ _)

/-- Claim C5: `applyDecay` with `deltaDays = 0` is the identity on `S0G` for
every `lambda0` and `Rd`; with `Rd = 1` it is the identity for every
`deltaDays` (a perfectly flexible deadline never decays); and for
`lambda0 > 0`, `Rd > 1` and `S0G > 0` the output strictly decreases as
`deltaDays` increases — the score shrinks the further away the deadline
lies, which is exactly the sign direction the spec fixes. -/
theorem applyDecay_spec :
    (∀ S0G lambda0 Rd : ℝ,
      applyDecay S0G ⟨0, lambda0, Rd⟩ = S0G) ∧
    (∀ S0G deltaDays lambda0 : ℝ,
      applyDecay S0G ⟨deltaDays, lambda0, 1⟩ = S0G) ∧
    (∀ S0G lambda0 Rd d1 d2 : ℝ, 0 < lambda0 → 1 < Rd → 0 < S0G → d1 < d2 →
      applyDecay S0G ⟨d2, lambda0, Rd⟩ < applyDecay S0G ⟨d1, lambda0, Rd⟩) := by
  refine ⟨?_, ?_, ?_⟩
  · intro S0G lambda0 Rd
    simp [applyDecay]
  · intro S0G deltaDays lambda0
    simp [applyDecay]
  · intro S0G lambda0 Rd d1 d2 hl hRd hS hd
    unfold applyDecay
    have hlam : 0 < lambda0 * (Rd - 1) := mul_pos hl (by linarith)
    have hexp : Real.exp (-(lambda0 * (Rd - 1)) * d2) <
        Real.exp (-(lambda0 * (Rd - 1)) * d1) := by
      apply Real.exp_lt_exp.mpr
      nlinarith
    simpa using mul_lt_mul_of_pos_left hexp hS

/-- Witness for C5: at `S0G = 100`, `lambda0 = 0.25`, `Rd = 5`, the decayed
value at `deltaDays = 2` is strictly below the one at `deltaDays = 1`. -/
theorem applyDecay_spec_witness :
    applyDecay 100 ⟨2, 0.25, 5⟩ < applyDecay 100 ⟨1, 0.25, 5⟩ :=
  applyDecay_spec.2.2 100 0.25 5 1 2 (by norm_num) (by norm_num) (by norm_num)
    (by norm_num)

/-- Claim C7: `continuousBenefit H b0 k` is `0` for every `H ≤ 0`, and for
`b0 > 0`, `k > 0` it is strictly increasing in `H` on `H > 0` and bounded
above by `b0 / k`. -/
theorem continuousBenefit_spec :
    (∀ H b0 k : ℝ, H ≤ 0 → continuousBenefit H b0 k = 0) ∧
    (∀ b0 k H1 H2 : ℝ, 0 < b0 → 0 < k → 0 < H1 → H1 < H2 →
      continuousBenefit H1 b0 k < continuousBenefit H2 b0 k) ∧
    (∀ b0 k H : ℝ, 0 < b0 → 0 < k → continuousBenefit H b0 k ≤ b0 / k) := by
  refine ⟨?_, ?_, ?_⟩
  · intro H b0 k h
    unfold continuousBenefit
    exact if_pos h
  · intro b0 k H1 H2 hb hk h1 h12
    unfold continuousBenefit
    rw [if_neg (by linarith), if_neg (by linarith)]
    have hexp : Real.exp (-k * H2) < Real.exp (-k * H1) := by
      apply Real.exp_lt_exp.mpr
      nlinarith
    have hdiv : 0 < b0 / k := div_pos hb hk
    have : (1 : ℝ) - Real.exp (-k * H1) < 1 - Real.exp (-k * H2) := by linarith
    exact mul_lt_mul_of_pos_left this hdiv
  · intro b0 k H hb hk
    unfold continuousBenefit
    have hdiv : 0 ≤ b0 / k := le_of_lt (div_pos hb hk)
    split
    · exact hdiv
    · have hexp : 0 < Real.exp (-k * H) := Real.exp_pos _
      have : (1 : ℝ) - Real.exp (-k * H) ≤ 1 := by linarith
      calc b0 / k * (1 - Real.exp (-k * H)) ≤ b0 / k * 1 :=
            mul_le_mul_of_nonneg_left this hdiv
        _ = b0 / k := mul_one _

/-- Witness for C7: concrete instances of each conjunct — the zero value at
`H = -1`, strict growth from `H = 1` to `H = 2`, and the `b0 / k` bound at
`H = 5`, all with `b0 = 1`, `k = 0.5`. -/
theorem continuousBenefit_spec_witness :
    continuousBenefit (-1) 1 0.5 = 0 ∧
    continuousBenefit 1 1 0.5 < continuousBenefit 2 1 0.5 ∧
    continuousBenefit 5 1 0.5 ≤ 1 / 0.5 :=
  ⟨continuousBenefit_spec.1 (-1) 1 0.5 (by norm_num),
   continuousBenefit_spec.2.1 1 0.5 1 2 (by norm_num) (by norm_num) (by norm_num)
     (by norm_num),
   continuousBenefit_spec.2.2 1 0.5 5 (by norm_num) (by norm_num)⟩

/-- Counterexample for C8 as stated: with a negative hourly rate
`ct = -1` (a legal `CostInput`), raising `horas` from `0` to `10` with every
other field fixed strictly lowers the cost (`5` drops to `0`), so `calcCost`
is not monotonically non-decreasing in `horas` over all cost inputs. -/
theorem calcCost_monotone_cex :
    ¬ (∀ (c : CostInput) (h2 : ℝ), c.horas ≤ h2 →
        calcCost c ≤ calcCost { c with horas := h2 }) := by
  intro h
  have h5 : calcCost ⟨-1, 0, 0, 5, 0, 0, 0⟩ = 5 := by
    unfold calcCost
    norm_num
  have h0 : calcCost ⟨-1, 0, 0, 5, 10, 0, 0⟩ = 0 := by
    unfold calcCost
    norm_num
  have := h ⟨-1, 0, 0, 5, 0, 0, 0⟩ 10 (by norm_num)
  rw [h5] at this
  simp only [h0] at this
  norm_num at this

/-- Claim C8 (amended): `calcCost` is always nonnegative, even on
deliberately negative inputs; and it is monotonically non-decreasing in each
of `horas`, `esforco`, `dinheiro` (all other fields fixed) provided the
matching rate coefficient (`ct`, `ce`, `c$` respectively) is nonnegative —
with a negative coefficient the monotonicity fails (see the
counterexample). -/
theorem calcCost_spec :
    (∀ c : CostInput, 0 ≤ calcCost c) ∧
    (∀ (c : CostInput) (h2 : ℝ), 0 ≤ c.ct → c.horas ≤ h2 →
      calcCost c ≤ calcCost { c with horas := h2 }) ∧
    (∀ (c : CostInput) (e2 : ℝ), 0 ≤ c.ce → c.esforco ≤ e2 →
      calcCost c ≤ calcCost { c with esforco := e2 }) ∧
    (∀ (c : CostInput) (d2 : ℝ), 0 ≤ c.cDollar → c.dinheiro ≤ d2 →
      calcCost c ≤ calcCost { c with dinheiro := d2 }) := by
  refine ⟨?_, ?_, ?_, ?_⟩
  · intro c
    exact le_max_left 0 _
  · intro c h2 hct hh
    unfold calcCost
    apply max_le_max (le_refl 0)
    have := mul_le_mul_of_nonneg_left hh hct
    simp only
    linarith
  · intro c e2 hce he
    unfold calcCost
    apply max_le_max (le_refl 0)
    have := mul_le_mul_of_nonneg_left he hce
    simp only
    linarith
  · intro c d2 hcd hd
    unfold calcCost
    apply max_le_max (le_refl 0)
    have := mul_le_mul_of_nonneg_left hd hcd
    simp only
    linarith

/-- Witness for C8 (amended): with the engine's own rates
`ct = 8, ce = 6, c$ = 2` the cost is nonnegative and grows (weakly) when
hours go `1 → 2`, effort `3 → 4`, money `0 → 7`. -/
theorem calcCost_spec_witness :
    0 ≤ calcCost ⟨8, 6, 2, 5, 1, 3, 0⟩ ∧
    calcCost ⟨8, 6, 2, 5, 1, 3, 0⟩ ≤ calcCost ⟨8, 6, 2, 5, 2, 3, 0⟩ ∧
    calcCost ⟨8, 6, 2, 5, 1, 3, 0⟩ ≤ calcCost ⟨8, 6, 2, 5, 1, 4, 0⟩ ∧
    calcCost ⟨8, 6, 2, 5, 1, 3, 0⟩ ≤ calcCost ⟨8, 6, 2, 5, 1, 3, 7⟩ :=
  ⟨calcCost_spec.1 ⟨8, 6, 2, 5, 1, 3, 0⟩,
   calcCost_spec.2.1 ⟨8, 6, 2, 5, 1, 3, 0⟩ 2 (by norm_num) (by norm_num),
   calcCost_spec.2.2.1 ⟨8, 6, 2, 5, 1, 3, 0⟩ 4 (by norm_num) (by norm_num),
   calcCost_spec.2.2.2 ⟨8, 6, 2, 5, 1, 3, 0⟩ 7 (by norm_num) (by norm_num)⟩

/-- Counterexample for C9 as stated: for the unknown category `"projeto"`
the validator accepts `1000` minutes, while for `"outro"` it rejects them
(the registered range is `[5, 480]`): the unknown category does not behave
like `outro`, it is unconditionally permissive. -/
theorem validate_unknown_cex :
    validateDuration "projeto" 1000 ∧ ¬ validateDuration "outro" 1000 := by
  constructor
  · show True
    trivial
  · intro h
    have h480 : (1000 : ℝ) ≤ 480 := h.2
    norm_num at h480

/-- Claim C9 (amended): for a category with no registered calibration entry,
`validateDuration` and `validateEffort` return `true` unconditionally (the
permissive default) — they do not consult the `outro` entry. -/
theorem validate_unknown_permissive (type : String) (minutes effort : ℝ)
    (hd : CONSTRAINTS_duration type = none)
    (he : CONSTRAINTS_effort type = none) :
    validateDuration type minutes ∧ validateEffort type effort := by
  constructor
  · unfold validateDuration
    rw [hd]
    trivial
  · unfold validateEffort
    rw [he]
    trivial

/-- Witness for C9 (amended): the unknown category `"projeto"` passes both
validators at `1000` minutes and `99` effort. -/
theorem validate_unknown_permissive_witness :
    validateDuration "projeto" 1000 ∧ validateEffort "projeto" 99 :=
  validate_unknown_permissive "projeto" 1000 99 rfl rfl

/-- Claim C10: `checkTimeWindow` yields `0` only when both `start` and `end`
are present and the end lies before `now`; whenever `start` or `end` is
missing (including a task whose start lies in the past with no end), the
check yields `1`, so the task is never zeroed on account of its time
window. -/
theorem checkTimeWindow_spec :
    (∀ (task : Task) (now : ℝ), checkTimeWindow task now = 0 →
      ∃ s e, task.start = some s ∧ task.end_ = some e ∧ e < now) ∧
    (∀ (task : Task) (now : ℝ), task.start = none ∨ task.end_ = none →
      checkTimeWindow task now = 1) := by
  constructor
  · intro task now h
    unfold checkTimeWindow at h
    rcases hs : task.start with _ | s <;> rcases he : task.end_ with _ | e <;>
        rw [hs, he] at h
    · exact absurd h one_ne_zero
    · exact absurd h one_ne_zero
    · exact absurd h one_ne_zero
    · change (if s > now then 1 else if e < now then 0 else (1 : ℕ)) = 0 at h
      split_ifs at h with hgt hlt
      exact ⟨s, e, rfl, rfl, hlt⟩
  · intro task now h
    unfold checkTimeWindow
    rcases hs : task.start with _ | s <;> rcases he : task.end_ with _ | e
    · rfl
    · rfl
    · rfl
    · rcases h with h | h
      · exact absurd (hs.symm.trans h) (Option.some_ne_none s)
      · exact absurd (he.symm.trans h) (Option.some_ne_none e)

/-- Witness for C10: the elapsed window (start `0`, end `1`, now `2`) indeed
has both endpoints with the end before now, and a task with no explicit
window gets `Wwin = 1`. -/
theorem checkTimeWindow_spec_witness :
    (∃ s e, elapsedWindowTask.start = some s ∧ elapsedWindowTask.end_ = some e ∧
      e < 2) ∧
    checkTimeWindow pontualTask 5 = 1 :=
  ⟨checkTimeWindow_spec.1 elapsedWindowTask 2
    (by norm_num [checkTimeWindow, elapsedWindowTask, pontualTask]),
   checkTimeWindow_spec.2 pontualTask 5 (Or.inl rfl)⟩

/-- The practical gate passes the base value through when the window is open
and the dependencies are resolved. -/
theorem applyPracticalConstraints_pass (PB : ℝ) (w : WindowCheck)
    (h1 : w.Wwin = 1) (h2 : w.depsDone) : applyPracticalConstraints PB w = PB := by
  unfold applyPracticalConstraints
  rw [if_pos ⟨h1, h2⟩]

/-- When no early gate fires, `scoreTask` is the practical gate applied to
the priority base. -/
theorem scoreTask_eq_of_checks (task : Task) (now : ℝ) (prefs : UserPreferences)
    (allTasks : List Task)
    (h1 : task.completed = false) (h2 : checkDurationConstraints task)
    (h3 : checkEffortConstraints task) :
    scoreTask task now prefs allTasks =
      applyPracticalConstraints (scoreTaskPriorityBase task now prefs)
        ⟨checkTimeWindow task now, checkDependencies task allTasks⟩ := by
  unfold scoreTask
  rw [h1, if_neg Bool.false_ne_true, if_neg (not_not_intro h2),
    if_neg (not_not_intro h3)]

/-- Counterexample for C3 as stated: `zeroDurationTask` has category
`pontual` with registered range `[5, 480]` and `durationMin = 0`, which lies
outside that range, yet its score is `69`, not `0` — JavaScript treats the
falsy duration `0` as absent and skips the constraint check. -/
theorem scoreTask_zero_duration_cex :
    zeroDurationTask.durationMin = some 0 ∧
    ¬ validateDuration zeroDurationTask.type 0 ∧
    scoreTask zeroDurationTask 0 basePrefs [] = 69 := by
  refine ⟨rfl, ?_, ?_⟩
  · intro hv
    have h5 : (5 : ℝ) ≤ 0 := hv.1
    norm_num at h5
  · rw [scoreTask_eq_of_checks zeroDurationTask 0 basePrefs [] rfl (Or.inl rfl)
        trivial,
      applyPracticalConstraints_pass _ _ rfl trivial]
    norm_num +decide [scoreTaskPriorityBase, scoreTaskS0D, scoreTaskS0G,
      scoreTaskS0, scoreTaskCost, taskHoursOf, jsOr, calcS0Base, calcCost,
      calcPriorityBase, zeroDurationTask, pontualTask, basePrefs,
      DEFAULTS.SCALE, DEFAULTS.cost_ct, DEFAULTS.cost_ce,
      DEFAULTS.cost_cDollar, DEFAULTS.cost_kSetup, DEFAULTS.cost_kSetup_outro]

/-- Claim C3 (amended): for every task whose `durationMin` is present,
non-zero (JavaScript treats a `0` duration as absent and skips the check —
see the counterexample) and outside its category's registered inclusive
`[min, max]` range, `scoreTask` returns `0` regardless of the task's other
fields, the current time, the preferences, or the collection. -/
theorem scoreTask_duration_violation (task : Task) (now : ℝ)
    (prefs : UserPreferences) (allTasks : List Task) (d : ℝ)
    (hd : task.durationMin = some d) (hd0 : d ≠ 0)
    (hv : ¬ validateDuration task.type d) :
    scoreTask task now prefs allTasks = 0 := by
  have hc : ¬ checkDurationConstraints task := by
    unfold checkDurationConstraints
    rw [hd]
    rintro (h | h)
    · exact hd0 h
    · exact hv h
  unfold scoreTask
  split <;> rfl

/-- Witness for C3 (amended): the spec's own example — an `estudo` task of
30 minutes against the registered minimum of 45 — scores `0`. -/
theorem scoreTask_duration_violation_witness :
    scoreTask shortStudyTask 0 basePrefs [] = 0 :=
  scoreTask_duration_violation shortStudyTask 0 basePrefs [] 30 rfl
    (by norm_num)
    (by
      intro hv
      have h45 : (45 : ℝ) ≤ 30 := hv.1
      norm_num at h45)

/-- Counterexample for C4 as stated: `studyNoDurationTask` is an `estudo`
task carrying no `durationMin`, yet `scoreTask` computes its raw benefit
with the continuous saturation formula — strictly below the base formula's
value `100` — instead of the base (pointed) formula the claim requires for
that case.  (The code selects on category membership alone; the registered
metadata always exists for the four continuous categories, so duration
presence never enters the selection.) -/
theorem scoreTaskS0_no_duration_cex :
    studyNoDurationTask.durationMin = none ∧
    scoreTaskS0 studyNoDurationTask basePrefs ≠
      calcS0Base basePrefs.weights studyNoDurationTask.benefits DEFAULTS.SCALE := by
  refine ⟨rfl, ne_of_lt ?_⟩
  have hexp : (0.3 : ℝ) < Real.exp (-(0.7 : ℝ)) := by
    have h := Real.add_one_lt_exp (show ((-0.7 : ℝ)) ≠ 0 by norm_num)
    linarith
  norm_num +decide [scoreTaskS0, taskHoursOf, jsOr, calcS0Continuous,
    continuousBenefit, calcS0Base, studyNoDurationTask, pontualTask, basePrefs,
    DEFAULTS.SCALE, DEFAULTS.continuous]
  norm_num at hexp
  nlinarith [hexp, Real.exp_pos (-(7 / 10 : ℝ))]

/-- Claim C4 (amended): in `scoreTask` the raw benefit `S0` is computed with
the continuous saturation formula exactly when the task's category has
registered continuous metadata (the four categories
estudo/treino/sono/leitura), whether or not a duration is present
(`durationMin || 60` supplies the hours); the base formula
`S0 = SCALE * (wd*bd + wf*bf + wm*bm)` is used for every other category. -/
theorem scoreTaskS0_selection :
    (∀ (task : Task) (prefs : UserPreferences) (meta : ContinuousMeta),
      DEFAULTS.continuous task.type = some meta →
      scoreTaskS0 task prefs =
        calcS0Continuous (taskHoursOf task) prefs.weights task.benefits
          DEFAULTS.SCALE meta.b0 meta.k) ∧
    (∀ (task : Task) (prefs : UserPreferences),
      DEFAULTS.continuous task.type = none →
      scoreTaskS0 task prefs =
        calcS0Base prefs.weights task.benefits DEFAULTS.SCALE) := by
  constructor
  · intro task prefs meta h
    have hmem : task.type ∈ ["estudo", "treino", "sono", "leitura"] := by
      by_contra hmem
      simp only [List.mem_cons, List.not_mem_nil, or_false, not_or] at hmem
      obtain ⟨h1, h2, h3, h4⟩ := hmem
      unfold DEFAULTS.continuous at h
      rw [if_neg h1, if_neg h2, if_neg h3, if_neg h4] at h
      exact Option.noConfusion h
    unfold scoreTaskS0
    rw [if_pos hmem, h]
  · intro task prefs h
    unfold scoreTaskS0
    split
    · rw [h]
    · rfl

/-- Witness for C4 (amended): the `estudo` task without a duration takes the
continuous formula (with `b0 = 1`, `k = 0.7` from the calibration), and the
`pontual` task takes the base formula. -/
theorem scoreTaskS0_selection_witness :
    scoreTaskS0 studyNoDurationTask basePrefs =
      calcS0Continuous (taskHoursOf studyNoDurationTask) basePrefs.weights
        studyNoDurationTask.benefits DEFAULTS.SCALE 1 0.7 ∧
    scoreTaskS0 pontualTask basePrefs =
      calcS0Base basePrefs.weights pontualTask.benefits DEFAULTS.SCALE :=
  ⟨scoreTaskS0_selection.1 studyNoDurationTask basePrefs ⟨0.75, 2, 1, 0.7⟩ rfl,
   scoreTaskS0_selection.2 pontualTask basePrefs rfl⟩

/-- Counterexample for C6 as stated: `zeroBenefitDepTask` depends on `d1`
and the collection contains the completed task `d1`, so its dependency is
resolved; yet re-scoring still yields `0` (its benefits are all zero, so the
priority base `max(0, S0D - K)` is already `0`): completing the dependency
does not by itself make the score non-zero. -/
theorem scoreTask_dep_completed_cex :
    checkDependencies zeroBenefitDepTask [zeroBenefitDepTask, completedDep] ∧
    scoreTask zeroBenefitDepTask 0 basePrefs [zeroBenefitDepTask, completedDep]
      = 0 := by
  have hfind : List.find? (fun t => t.id == "d1")
      [zeroBenefitDepTask, completedDep] = some completedDep := by
    rw [List.find?_cons_of_neg, List.find?_cons_of_pos]
    · simp [completedDep, pontualTask]
    · simp [zeroBenefitDepTask, pontualTask]
  have hdeps : checkDependencies zeroBenefitDepTask
      [zeroBenefitDepTask, completedDep] := by
    unfold checkDependencies
    rw [show zeroBenefitDepTask.deps = some ["d1"] from rfl]
    right
    intro depId hmem
    rw [List.mem_singleton] at hmem
    subst hmem
    rw [hfind]
    show completedDep.completed = true
    rfl
  refine ⟨hdeps, ?_⟩
  rw [scoreTask_eq_of_checks zeroBenefitDepTask 0 basePrefs _ rfl trivial trivial,
    applyPracticalConstraints_pass _ _ rfl hdeps]
  norm_num +decide [scoreTaskPriorityBase, scoreTaskS0D, scoreTaskS0G,
    scoreTaskS0, scoreTaskCost, taskHoursOf, jsOr, calcS0Base, calcCost,
    calcPriorityBase, zeroBenefitDepTask, pontualTask, basePrefs,
    DEFAULTS.SCALE, DEFAULTS.cost_ct, DEFAULTS.cost_ce, DEFAULTS.cost_cDollar,
    DEFAULTS.cost_kSetup, DEFAULTS.cost_kSetup_outro]

/-- Claim C6 (amended): a task listing a dependency ID that does not resolve
to a completed task in the supplied collection scores `0`; and when every
gate passes — the task is not completed, its constraints hold, its
dependencies are all resolved (e.g. after completing the blocking task), its
window is open — the score equals the ungated priority base and is non-zero
whenever that base is positive.  (Completing the dependency alone does not
force a non-zero score; see the counterexample with a zero base.) -/
theorem scoreTask_dependencies :
    (∀ (task : Task) (now : ℝ) (prefs : UserPreferences) (allTasks : List Task)
       (ds : List String) (depId : String),
      task.deps = some ds → depId ∈ ds →
      ¬ ((allTasks.find? fun t => t.id == depId).elim False fun depTask =>
          depTask.completed = true) →
      scoreTask task now prefs allTasks = 0) ∧
    (∀ (task : Task) (now : ℝ) (prefs : UserPreferences) (allTasks : List Task),
      task.completed = false → checkDurationConstraints task →
      checkEffortConstraints task → checkDependencies task allTasks →
      checkTimeWindow task now = 1 →
      0 < scoreTaskPriorityBase task now prefs →
      scoreTask task now prefs allTasks = scoreTaskPriorityBase task now prefs ∧
        scoreTask task now prefs allTasks ≠ 0) := by
  constructor
  · intro task now prefs allTasks ds depId hds hmem hun
    have hnd : ¬ checkDependencies task allTasks := by
      unfold checkDependencies
      rw [hds]
      rintro (h | h)
      · rw [List.length_eq_zero] at h
        subst h
        exact List.not_mem_nil depId hmem
      · exact hun (h depId hmem)
    unfold scoreTask
    split
    · rfl
    split
    · rfl
    split
    · rfl
    unfold applyPracticalConstraints
    rw [if_neg]
    intro hcon
    exact hnd hcon.2
  · intro task now prefs allTasks hc hdur heff hdeps hwin hpos
    have heq : scoreTask task now prefs allTasks =
        scoreTaskPriorityBase task now prefs := by
      rw [scoreTask_eq_of_checks task now prefs allTasks hc hdur heff]
      exact applyPracticalConstraints_pass _ _ hwin hdeps
    refine ⟨heq, ?_⟩
    rw [heq]
    exact ne_of_gt hpos

/-- Witness for C6 (amended): `depTask` scores `0` against the empty
collection (its dependency `d1` is unresolved), and scores non-zero against
a collection in which `d1` is completed. -/
theorem scoreTask_dependencies_witness :
    scoreTask depTask 0 basePrefs [] = 0 ∧
    scoreTask depTask 0 basePrefs [depTask, completedDep] ≠ 0 := by
  constructor
  · exact scoreTask_dependencies.1 depTask 0 basePrefs [] ["d1"] "d1" rfl
      (List.mem_singleton.mpr rfl) (fun h => h)
  · have hfind : List.find? (fun t => t.id == "d1") [depTask, completedDep] =
        some completedDep := by
      rw [List.find?_cons_of_neg, List.find?_cons_of_pos]
      · simp [completedDep, pontualTask]
      · simp [depTask, pontualTask]
    have hdeps : checkDependencies depTask [depTask, completedDep] := by
      unfold checkDependencies
      rw [show depTask.deps = some ["d1"] from rfl]
      right
      intro depId hmem
      rw [List.mem_singleton] at hmem
      subst hmem
      rw [hfind]
      show completedDep.completed = true
      rfl
    have hpos : 0 < scoreTaskPriorityBase depTask 0 basePrefs := by
      norm_num +decide [scoreTaskPriorityBase, scoreTaskS0D, scoreTaskS0G,
        scoreTaskS0, scoreTaskCost, taskHoursOf, jsOr, calcS0Base, calcCost,
        calcPriorityBase, depTask, pontualTask, basePrefs, DEFAULTS.SCALE,
        DEFAULTS.cost_ct, DEFAULTS.cost_ce, DEFAULTS.cost_cDollar,
        DEFAULTS.cost_kSetup, DEFAULTS.cost_kSetup_outro]
    exact (scoreTask_dependencies.2 depTask 0 basePrefs [depTask, completedDep]
      rfl trivial trivial hdeps rfl hpos).2

/-- The engine never reads `priorityScore`: overwriting it does not change
the score a task receives. -/
theorem scoreTask_update_priorityScore (t : Task) (p : Option ℝ) (now : ℝ)
    (prefs : UserPreferences) (allTasks : List Task) :
    scoreTask { t with priorityScore := p } now prefs allTasks =
      scoreTask t now prefs allTasks := rfl

/-- Claim C1: `sortTasksByPriority` returns exactly the tasks given — a
permutation of the input list with each task's `priorityScore` overwritten
by the value `scoreTask` computes for it against the full input collection
(so the multiset of task IDs is unchanged, none added or removed) — and the
returned list is ordered non-increasing by `priorityScore`. -/
theorem sortTasksByPriority_spec (tasks : List Task) (now : ℝ)
    (prefs : UserPreferences) :
    (sortTasksByPriority tasks now prefs).Perm
      (tasks.map fun t =>
        { t with priorityScore := some (scoreTask t now prefs tasks) }) ∧
    ((sortTasksByPriority tasks now prefs).map Task.id).Perm
      (tasks.map Task.id) ∧
    (∀ u ∈ sortTasksByPriority tasks now prefs,
      u.priorityScore = some (scoreTask u now prefs tasks)) ∧
    (sortTasksByPriority tasks now prefs).Sorted byDescendingScore := by
  have hperm : (sortTasksByPriority tasks now prefs).Perm
      (tasks.map fun t =>
        { t with priorityScore := some (scoreTask t now prefs tasks) }) :=
    List.perm_insertionSort byDescendingScore _
  refine ⟨hperm, ?_, ?_, ?_⟩
  · have h := hperm.map Task.id
    rw [List.map_map] at h
    exact h
  · intro u hu
    have hu2 := hperm.subset hu
    rcases List.mem_map.mp hu2 with ⟨t, ht, rfl⟩
    exact congrArg some (scoreTask_update_priorityScore t _ now prefs tasks).symm
  · exact List.sorted_insertionSort byDescendingScore _

end Auri
